import Mathlib

/-!
Shallow embedding of the traveltime CLI tool.

The tool's core logic lives in main.go: parsing a "name,lat,lng" coordinate
string (parseLatLngName), choosing origin/destination by comparing straight
line distance from the current position to each candidate (findDirection /
calculateDistance), computing absolute and relative traffic deviation from a
pair of durations (getAbsoluteDeviation / getRelativeDeviation / newDeviation)
and rendering the result through a template (defaultFormat).

Numbers: Go float64 arithmetic is modelled by exact rational arithmetic, with
the one non-finite outcome the program can produce (division by zero in
getRelativeDeviation) made explicit as an Option.  Go time.Duration is an
integer count of nanoseconds.  Go strings are Lean Strings; the few Go string
library functions used (strings.Count, strings.Cut, strings.Split on a one
character separator) are embedded via their List Char contents.
-/

/-- Go time.Duration: an integer count of nanoseconds. -/
structure Duration where
  ns : ℤ
deriving DecidableEq

/-- Duration.Seconds(): the duration as a number of seconds (exact value;
Go returns the float64 closest to it). -/
def Duration.seconds (d : Duration) : ℚ := (d.ns : ℚ) / 1000000000

/-- Duration.Minutes(): the duration as a number of minutes (exact value;
Go returns the float64 closest to it). -/
def Duration.minutes (d : Duration) : ℚ := (d.ns : ℚ) / 60000000000

/-- The part of the Distance Matrix response that the program reads:
distanceResult.Rows[0].Elements[0], with its two duration fields
DurationInTraffic and Duration. -/
structure DistanceMatrixElement where
  durationInTraffic : Duration
  duration : Duration
deriving DecidableEq

/-- getWithTrafficDuration returns Rows[0].Elements[0].DurationInTraffic. -/
def getWithTrafficDuration (r : DistanceMatrixElement) : Duration :=
  r.durationInTraffic

/-- getNoTrafficeDuration (sic) returns Rows[0].Elements[0].Duration. -/
def getNoTrafficeDuration (r : DistanceMatrixElement) : Duration :=
  r.duration

/-- getAbsoluteDeviation: withTraffic.Minutes() - noTraffic.Minutes(),
as an exact rational (both operands are finite, so the float64 computation
has no non-finite outcome). -/
def getAbsoluteDeviation (r : DistanceMatrixElement) : ℚ :=
  r.durationInTraffic.minutes - r.duration.minutes

/-- getRelativeDeviation: (100 / noTraffic.Seconds()) * withTraffic.Seconds()
- 100, computed by Go in float64.  When the divisor noTraffic.Seconds() is
zero, float64 division yields an infinity and the overall result is
non-finite (Inf or NaN); that outcome is modelled as none.  For a nonzero
divisor the exact rational value of the expression is returned. -/
def getRelativeDeviation (r : DistanceMatrixElement) : Option ℚ :=
  if r.duration.seconds = 0 then none
  else some (100 / r.duration.seconds * r.durationInTraffic.seconds - 100)

/-- Go conversion int(f) for a finite float64 f: the fractional part is
discarded, truncating toward zero. -/
def goTruncToInt (q : ℚ) : ℤ :=
  if 0 ≤ q then ⌊q⌋ else ⌈q⌉

/-- Go conversion int(f) on a possibly non-finite float64 value (none =
non-finite).  For a non-finite operand the Go specification leaves the result
implementation-dependent; on the common amd64 implementation it is the
minimum int64, used here. -/
def goIntOfFloat : Option ℚ → ℤ
  | some q => goTruncToInt q
  | none => -(2 ^ 63)

/-- fmt.Sprintf with verb plus-d: decimal rendering of an integer with an
explicit sign (a plus sign is added for nonnegative values; negative values
already carry their minus sign). -/
def fmtSignedInt (n : ℤ) : String :=
  (if 0 ≤ n then "+" else "") ++ toString n

/-- Deviation contains different versions of the delay induced by traffic:
Relative is the deviation in percent, Absolute the deviation in minutes. -/
structure Deviation where
  Relative : String
  Absolute : String
deriving DecidableEq

/-- newDeviation builds both Deviation strings with fmt.Sprintf plus-d applied
to the int conversion of the float64 deviation values. -/
def newDeviation (r : DistanceMatrixElement) : Deviation :=
  { Relative := fmtSignedInt (goIntOfFloat (getRelativeDeviation r)),
    Absolute := fmtSignedInt (goTruncToInt (getAbsoluteDeviation r)) }

/-- Claim-side definition, following the specification text only: round half
to even (banker's rounding) of a rational to an integer. -/
def roundHalfToEven (q : ℚ) : ℤ :=
  if q - ⌊q⌋ < 1 / 2 then ⌊q⌋
  else if 1 / 2 < q - ⌊q⌋ then ⌊q⌋ + 1
  else if Even ⌊q⌋ then ⌊q⌋ else ⌊q⌋ + 1

/-- maps.LatLng: a latitude/longitude pair; the Go float64 coordinates are
modelled as exact rationals. -/
structure LatLng where
  Lat : ℚ
  Lng : ℚ
deriving DecidableEq

/-- LatLngName extends the maps.LatLng struct with a name. -/
structure LatLngName where
  latLng : LatLng
  Name : String
deriving DecidableEq

/-- The radicand of calculateDistance:
math.Pow(point2.Lat-point1.Lat, 2) + math.Pow(point2.Lng-point1.Lng, 2). -/
def distanceSq (point1 point2 : LatLng) : ℚ :=
  (point2.Lat - point1.Lat) ^ 2 + (point2.Lng - point1.Lng) ^ 2

/-- calculateDistance: math.Sqrt applied to the sum of the squared coordinate
differences, as a real number. -/
noncomputable def calculateDistance (point1 point2 : LatLng) : ℝ :=
  Real.sqrt ((distanceSq point1 point2 : ℚ) : ℝ)

/-- findDirection returns (pointA, pointB) when calculateDistance(pointA.LatLng,
location) < calculateDistance(pointB.LatLng, location) and (pointB, pointA)
otherwise.  Real.sqrt is strictly monotone on nonnegative arguments, so the
source's comparison of the two square roots is equivalent to comparing the
radicands; the definition uses the radicands to stay executable, and the
lemma findDirection_sqrt_branch below proves the branch condition equal to
the source's. -/
def findDirection (pointA pointB : LatLngName) (location : LatLng) :
    LatLngName × LatLngName :=
  if distanceSq pointA.latLng location < distanceSq pointB.latLng location then
    (pointA, pointB)
  else
    (pointB, pointA)

/-- strings.Count(s, sep) for the one-character separator sep: the number of
occurrences of the character. -/
def goCount (s : String) (c : Char) : ℕ := s.data.count c

/-- Splitting a character list around the first occurrence of c:
some (before, after) when c occurs, none otherwise. -/
def cutList (c : Char) : List Char → Option (List Char × List Char)
  | [] => none
  | x :: xs =>
    if x = c then some ([], xs)
    else
      match cutList c xs with
      | some (a, b) => some (x :: a, b)
      | none => none

/-- strings.Cut(s, sep) for a one-character separator: (before, after, true)
around the first occurrence of sep, or (s, "", false) when sep does not
occur in s. -/
def goCut (s : String) (c : Char) : String × String × Bool :=
  match cutList c s.data with
  | some (a, b) => (⟨a⟩, ⟨b⟩, true)
  | none => (s, "", false)

/-- Value of a decimal digit character. -/
def digitVal (c : Char) : ℕ := c.toNat - 48

/-- Value of a digit string read as a decimal natural number. -/
def natOfDigits (l : List Char) : ℕ :=
  l.foldl (fun a c => a * 10 + digitVal c) 0

/-- Modelled from the spec: the remainder of a coordinate string must be
"parsed into two floating-point numbers".  This parses one such number, in
the plain decimal subset of Go float syntax relevant to coordinates: decimal
digits with at most one decimal point and at least one digit.  The exact
rational value is returned (float64 rounding is not modelled). -/
def parseFloatCore (l : List Char) : Option ℚ :=
  match cutList '.' l with
  | none => if l ≠ [] ∧ l.all Char.isDigit then some (natOfDigits l) else none
  | some (ip, fp) =>
    if ip ++ fp ≠ [] ∧ ip.all Char.isDigit ∧ fp.all Char.isDigit ∧ '.' ∉ fp then
      some ((natOfDigits ip : ℚ) + (natOfDigits fp : ℚ) / 10 ^ fp.length)
    else none

/-- Modelled from the spec: a floating-point number with an optional leading
sign. -/
def parseFloat (s : String) : Option ℚ :=
  match s.data with
  | [] => none
  | x :: rest =>
    if x = '+' then parseFloatCore rest
    else if x = '-' then (parseFloatCore rest).map Neg.neg
    else parseFloatCore (x :: rest)

/-- Modelled from the spec: the external library helper maps.ParseLatLng
splits its input on commas, requires exactly two fields and parses each field
as a floating-point number.  Exactly two fields means a comma occurs and the
part after the first comma contains no further comma.  Go errors are
modelled as message strings. -/
def ParseLatLng (location : String) : Except String LatLng :=
  match cutList ',' location.data with
  | none => .error "location must consist of two comma separated coordinates"
  | some (latPart, lngPart) =>
    if lngPart.count ',' ≠ 0 then
      .error "location must consist of two comma separated coordinates"
    else
      match parseFloat ⟨latPart⟩, parseFloat ⟨lngPart⟩ with
      | some lat, some lng => .ok ⟨lat, lng⟩
      | _, _ => .error "invalid coordinate value"

/-- parseLatLngName: requires exactly two commas in the input, cuts off the
name before the first comma, parses the remainder with maps.ParseLatLng and
attaches the name. -/
def parseLatLngName (location : String) : Except String LatLngName :=
  if goCount location ',' ≠ 2 then
    .error ("invalid format, must contain 2 commas, got " ++
      toString (goCount location ','))
  else
    match goCut location ',' with
    | (name, latLng, ok) =>
      if ok = false then .error "failed to parse name"
      else
        match ParseLatLng latLng with
        | .error e => .error e
        | .ok ll => .ok ⟨ll, name⟩

/-- TravelResult holds all informations about a travel. -/
structure TravelResult where
  Origin : LatLngName
  Destination : LatLngName
  WithTraffic : ℤ
  NoTraffic : ℤ
  Deviation : Deviation
deriving DecidableEq

/-- Modelled from the spec: executing the default output template
defaultFormat, which renders Origin.Name, the text ": ", WithTraffic in
decimal, a space, Deviation.Absolute and the text "min". -/
def renderDefaultFormat (r : TravelResult) : String :=
  r.Origin.Name ++ ": " ++ toString r.WithTraffic ++ " " ++
    r.Deviation.Absolute ++ "min"

theorem newDeviation_eq_of_noTraffic_ne_zero (r : DistanceMatrixElement)
    (h : r.duration.seconds ≠ 0) :
    newDeviation r =
      { Relative := fmtSignedInt (goTruncToInt
          (100 / r.duration.seconds * r.durationInTraffic.seconds - 100)),
        Absolute := fmtSignedInt (goTruncToInt
          (r.durationInTraffic.minutes - r.duration.minutes)) } := by
  simp [newDeviation, getRelativeDeviation, getAbsoluteDeviation, goIntOfFloat, h]

theorem newDeviation_at_6600s_6000s :
    newDeviation ⟨⟨6600000000000⟩, ⟨6000000000000⟩⟩ = ⟨"+10", "+10"⟩ := by
  simp only [newDeviation, getRelativeDeviation, getAbsoluteDeviation, Duration.seconds,
    Duration.minutes, goIntOfFloat, goTruncToInt, fmtSignedInt]
  norm_num
  rfl

theorem newDeviation_at_90s_60s :
    newDeviation ⟨⟨90000000000⟩, ⟨60000000000⟩⟩ = ⟨"+50", "+0"⟩ := by
  simp only [newDeviation, getRelativeDeviation, getAbsoluteDeviation, Duration.seconds,
    Duration.minutes, goIntOfFloat, goTruncToInt, fmtSignedInt]
  norm_num
  exact ⟨rfl, rfl⟩

theorem goString_data_append (a b : String) : (a ++ b).data = a.data ++ b.data := by
  cases a; cases b; rfl

theorem distanceSq_nonneg (p q : LatLng) : 0 ≤ distanceSq p q := by
  unfold distanceSq; positivity

theorem distanceSq_cast_nonneg (p q : LatLng) : (0 : ℝ) ≤ ((distanceSq p q : ℚ) : ℝ) := by
  exact_mod_cast distanceSq_nonneg p q

theorem findDirection_sqrt_branch (pointA pointB : LatLngName) (location : LatLng) :
    (calculateDistance pointA.latLng location < calculateDistance pointB.latLng location ↔
      distanceSq pointA.latLng location < distanceSq pointB.latLng location) := by
  unfold calculateDistance
  rw [Real.sqrt_lt_sqrt_iff (distanceSq_cast_nonneg _ _)]
  exact_mod_cast Iff.rfl

theorem calculateDistance_inj (p q loc : LatLng)
    (h : calculateDistance p loc = calculateDistance q loc) :
    distanceSq p loc = distanceSq q loc := by
  unfold calculateDistance at h
  have := (Real.sqrt_inj (distanceSq_cast_nonneg _ _) (distanceSq_cast_nonneg _ _)).mp h
  exact_mod_cast this

theorem cutList_append_right (c : Char) (a b : List Char) (ha : c ∉ a) :
    cutList c (a ++ c :: b) = some (a, b) := by
  induction a with
  | nil => simp [cutList]
  | cons x xs ih =>
    rw [List.mem_cons, not_or] at ha
    have hx : ¬ x = c := fun h => ha.1 h.symm
    simp only [List.cons_append, cutList, if_neg hx, List.append_eq]
    rw [ih ha.2]

theorem cutList_none (c : Char) (l : List Char) (h : c ∉ l) : cutList c l = none := by
  induction l with
  | nil => rfl
  | cons x xs ih =>
    rw [List.mem_cons, not_or] at h
    have hx : ¬ x = c := fun hc => h.1 hc.symm
    simp only [cutList, if_neg hx]
    rw [ih h.2]

theorem cutList_eq_some (c : Char) (l a b : List Char) (h : cutList c l = some (a, b)) :
    l = a ++ c :: b ∧ c ∉ a := by
  induction l generalizing a b with
  | nil => simp [cutList] at h
  | cons x xs ih =>
    by_cases hx : x = c
    · subst hx
      simp only [cutList, if_pos rfl, Option.some.injEq, Prod.mk.injEq] at h
      obtain ⟨rfl, rfl⟩ := h
      simp
    · simp only [cutList, if_neg hx] at h
      cases hcut : cutList c xs with
      | none => rw [hcut] at h; exact absurd h (by simp)
      | some ab =>
        obtain ⟨a', b'⟩ := ab
        rw [hcut] at h
        simp only [Option.some.injEq, Prod.mk.injEq] at h
        obtain ⟨ha', hb'⟩ := h
        subst ha'
        subst hb'
        obtain ⟨hl, hm⟩ := ih a' b' hcut
        subst hl
        refine ⟨by simp, ?_⟩
        rw [List.mem_cons, not_or]
        exact ⟨fun hc => hx hc.symm, hm⟩

theorem ifSomeEq {α : Type} {c : Prop} [Decidable c] {v q : α}
    (h : (if c then some v else none) = some q) : c ∧ v = q := by
  by_cases hc : c
  · rw [if_pos hc] at h
    exact ⟨hc, by injection h⟩
  · rw [if_neg hc] at h
    exact absurd h (by simp)

theorem parseFloatCore_chars (l : List Char) (q : ℚ) (h : parseFloatCore l = some q) :
    ∀ x ∈ l, x.isDigit = true ∨ x = '.' := by
  unfold parseFloatCore at h
  cases hcut : cutList '.' l with
  | none =>
    rw [hcut] at h
    obtain ⟨hcond, -⟩ := ifSomeEq h
    intro x hx
    exact Or.inl (List.all_eq_true.mp hcond.2 x hx)
  | some ab =>
    obtain ⟨ip, fp⟩ := ab
    rw [hcut] at h
    obtain ⟨hcond, -⟩ := ifSomeEq h
    obtain ⟨hl, -⟩ := cutList_eq_some '.' l ip fp hcut
    intro x hx
    rw [hl] at hx
    rcases List.mem_append.mp hx with hxi | hxf
    · exact Or.inl (List.all_eq_true.mp hcond.2.1 x hxi)
    · rcases List.mem_cons.mp hxf with rfl | hxf'
      · exact Or.inr rfl
      · exact Or.inl (List.all_eq_true.mp hcond.2.2.1 x hxf')

theorem parseFloat_no_comma (s : String) (q : ℚ) (h : parseFloat s = some q) :
    ',' ∉ s.data := by
  unfold parseFloat at h
  cases hd : s.data with
  | nil => simp
  | cons x rest =>
    rw [hd] at h
    have h' : (if x = '+' then parseFloatCore rest
        else if x = '-' then (parseFloatCore rest).map Neg.neg
        else parseFloatCore (x :: rest)) = some q := h
    by_cases hp : x = '+'
    · rw [if_pos hp] at h'
      intro hmem
      rcases List.mem_cons.mp hmem with heq | hmem'
      · exact absurd (heq ▸ hp) (by decide)
      · rcases parseFloatCore_chars rest q h' ',' hmem' with hdig | hdot
        · exact absurd hdig (by decide)
        · exact absurd hdot (by decide)
    · rw [if_neg hp] at h'
      by_cases hm : x = '-'
      · rw [if_pos hm] at h'
        obtain ⟨q', hq', -⟩ := Option.map_eq_some'.mp h'
        intro hmem
        rcases List.mem_cons.mp hmem with heq | hmem'
        · exact absurd (heq ▸ hm) (by decide)
        · rcases parseFloatCore_chars rest q' hq' ',' hmem' with hdig | hdot
          · exact absurd hdig (by decide)
          · exact absurd hdot (by decide)
      · rw [if_neg hm] at h'
        intro hmem
        rcases parseFloatCore_chars (x :: rest) q h' ',' hmem with hdig | hdot
        · exact absurd hdig (by decide)
        · exact absurd hdot (by decide)

theorem stringEta (s : String) : (⟨s.data⟩ : String) = s := rfl

theorem concat3_data (name latStr lngStr : String) :
    (name ++ "," ++ latStr ++ "," ++ lngStr).data =
      name.data ++ ',' :: (latStr.data ++ ',' :: lngStr.data) := by
  simp only [goString_data_append, List.append_assoc]
  rfl

theorem count_concat3 (name latStr lngStr : String)
    (hn : ',' ∉ name.data) (ha : ',' ∉ latStr.data) (hb : ',' ∉ lngStr.data) :
    goCount (name ++ "," ++ latStr ++ "," ++ lngStr) ',' = 2 := by
  unfold goCount
  rw [concat3_data]
  simp [List.count_append, List.count_cons, List.count_eq_zero.mpr hn,
    List.count_eq_zero.mpr ha, List.count_eq_zero.mpr hb]

theorem ParseLatLng_concat (latStr lngStr : String) (a b : ℚ)
    (ha : parseFloat latStr = some a) (hb : parseFloat lngStr = some b) :
    ParseLatLng ⟨latStr.data ++ ',' :: lngStr.data⟩ = .ok ⟨a, b⟩ := by
  have hla : ',' ∉ latStr.data := parseFloat_no_comma latStr a ha
  have hlb : ',' ∉ lngStr.data := parseFloat_no_comma lngStr b hb
  unfold ParseLatLng
  have hcut : cutList ',' (⟨latStr.data ++ ',' :: lngStr.data⟩ : String).data
      = some (latStr.data, lngStr.data) := cutList_append_right ',' _ _ hla
  simp only [hcut]
  rw [if_neg (by simp [List.count_eq_zero.mpr hlb])]
  rw [stringEta, stringEta, ha, hb]

theorem parseLatLngName_concat (name latStr lngStr : String) (a b : ℚ)
    (hn : ',' ∉ name.data) (ha : parseFloat latStr = some a) (hb : parseFloat lngStr = some b) :
    parseLatLngName (name ++ "," ++ latStr ++ "," ++ lngStr) = .ok ⟨⟨a, b⟩, name⟩ := by
  have hla := parseFloat_no_comma latStr a ha
  have hlb := parseFloat_no_comma lngStr b hb
  have hcount := count_concat3 name latStr lngStr hn hla hlb
  unfold parseLatLngName
  rw [if_neg (by simp [hcount])]
  have hcut : goCut (name ++ "," ++ latStr ++ "," ++ lngStr) ',' =
      (name, ⟨latStr.data ++ ',' :: lngStr.data⟩, true) := by
    unfold goCut
    rw [concat3_data, cutList_append_right ',' _ _ hn]
  simp only [hcut]
  rw [if_neg (by simp)]
  rw [ParseLatLng_concat latStr lngStr a b ha hb]

theorem parseLatLngName_ok_name (s : String) (p : LatLngName)
    (h : parseLatLngName s = .ok p) : ',' ∉ p.Name.data := by
  unfold parseLatLngName at h
  by_cases hc : goCount s ',' ≠ 2
  · rw [if_pos hc] at h
    exact Except.noConfusion h
  · rw [if_neg hc] at h
    unfold goCut at h
    cases hcut : cutList ',' s.data with
    | none =>
      rw [hcut] at h
      exact Except.noConfusion h
    | some ab =>
      obtain ⟨a, b⟩ := ab
      rw [hcut] at h
      have h' : (match ParseLatLng ⟨b⟩ with
          | .error e => Except.error e
          | .ok ll => Except.ok (⟨ll, ⟨a⟩⟩ : LatLngName)) = Except.ok p := h
      cases hP : ParseLatLng ⟨b⟩ with
      | error e =>
        rw [hP] at h'
        exact Except.noConfusion h'
      | ok ll =>
        rw [hP] at h'
        obtain rfl : (⟨ll, ⟨a⟩⟩ : LatLngName) = p := by injection h'
        obtain ⟨-, hna⟩ := cutList_eq_some ',' s.data a b hcut
        exact hna

theorem parseFloat_52_5 : parseFloat "52.5" = some (105 / 2) := by
  simp +decide [parseFloat, parseFloatCore, cutList, natOfDigits, digitVal]
  norm_num

theorem parseFloat_13_4 : parseFloat "13.4" = some (67 / 5) := by
  simp +decide [parseFloat, parseFloatCore, cutList, natOfDigits, digitVal]
  norm_num

theorem parse_home_ok : parseLatLngName "home,52.5,13.4" = .ok ⟨⟨105 / 2, 67 / 5⟩, "home"⟩ := by
  simp +decide [parseLatLngName, goCount, goCut, ParseLatLng, parseFloat, parseFloatCore,
    cutList, natOfDigits, digitVal]
  norm_num

theorem parse_empty_name_ok : parseLatLngName ",52.5,13.4" = .ok ⟨⟨105 / 2, 67 / 5⟩, ""⟩ := by
  simp +decide [parseLatLngName, goCount, goCut, ParseLatLng, parseFloat, parseFloatCore,
    cutList, natOfDigits, digitVal]
  norm_num

/-- C1 counterexample: the two candidate points (0,0) and (2,0) are at exactly
equal Euclidean distance from position (1,0), yet findDirection does not
return the first argument as origin. -/
theorem findDirection_tie_not_first :
    calculateDistance (⟨⟨0, 0⟩, "A"⟩ : LatLngName).latLng ⟨1, 0⟩ =
      calculateDistance (⟨⟨2, 0⟩, "B"⟩ : LatLngName).latLng ⟨1, 0⟩ ∧
    findDirection ⟨⟨0, 0⟩, "A"⟩ ⟨⟨2, 0⟩, "B"⟩ ⟨1, 0⟩ ≠ (⟨⟨0, 0⟩, "A"⟩, ⟨⟨2, 0⟩, "B"⟩) := by
  constructor
  · unfold calculateDistance
    norm_num [distanceSq]
  · norm_num [findDirection, distanceSq]

/-- C1 (amended): when the two Euclidean distances are exactly equal,
findDirection returns the SECOND argument as origin and the first as
destination. -/
theorem findDirection_tie_returns_second (pointA pointB : LatLngName) (location : LatLng)
    (h : calculateDistance pointA.latLng location = calculateDistance pointB.latLng location) :
    findDirection pointA pointB location = (pointB, pointA) := by
  have hsq := calculateDistance_inj _ _ _ h
  unfold findDirection
  rw [if_neg (by rw [hsq]; exact lt_irrefl _)]

/-- Witness for the amended C1 theorem at a concrete tie. -/
theorem findDirection_tie_returns_second_witness :
    findDirection ⟨⟨0, 0⟩, "A"⟩ ⟨⟨2, 0⟩, "B"⟩ ⟨1, 0⟩ = (⟨⟨2, 0⟩, "B"⟩, ⟨⟨0, 0⟩, "A"⟩) :=
  findDirection_tie_returns_second ⟨⟨0, 0⟩, "A"⟩ ⟨⟨2, 0⟩, "B"⟩ ⟨1, 0⟩
    (by unfold calculateDistance; norm_num [distanceSq])

/-- C10: findDirection always returns exactly a permutation of its two
candidate arguments, unmodified. -/
theorem findDirection_returns_permutation (pointA pointB : LatLngName) (location : LatLng) :
    findDirection pointA pointB location = (pointA, pointB) ∨
    findDirection pointA pointB location = (pointB, pointA) := by
  unfold findDirection
  split
  · exact Or.inl rfl
  · exact Or.inr rfl

/-- C2: with withoutTraffic = 0s the deviation computation does not fail:
getRelativeDeviation produces a non-finite float64 value (modelled none) and
newDeviation still renders strings, the non-finite value becoming the
implementation-dependent integer conversion. -/
theorem getRelativeDeviation_zero_divisor_no_error :
    getRelativeDeviation ⟨⟨6600000000000⟩, ⟨0⟩⟩ = none ∧
    newDeviation ⟨⟨6600000000000⟩, ⟨0⟩⟩ = ⟨"-9223372036854775808", "+110"⟩ := by
  constructor
  · simp [getRelativeDeviation, Duration.seconds]
  · simp only [newDeviation, getRelativeDeviation, getAbsoluteDeviation, Duration.seconds,
      Duration.minutes, goIntOfFloat, goTruncToInt, fmtSignedInt]
    norm_num
    exact ⟨rfl, rfl⟩

/-- C6: the worked example withTraffic = 110min (6600s), withoutTraffic =
100min (6000s) produces Absolute "+10" and Relative "+10". -/
theorem newDeviation_110min_100min :
    newDeviation ⟨⟨6600000000000⟩, ⟨6000000000000⟩⟩ = ⟨"+10", "+10"⟩ :=
  newDeviation_at_6600s_6000s

/-- C3 counterexample: at the spec's own worked example the Relative string
is "+10", which is not of the form signed-integer-followed-by-percent. -/
theorem relative_string_lacks_percent_suffix :
    ¬ ∃ n : ℤ, (newDeviation ⟨⟨6600000000000⟩, ⟨6000000000000⟩⟩).Relative =
      fmtSignedInt n ++ "%" := by
  rintro ⟨n, hn⟩
  rw [newDeviation_at_6600s_6000s] at hn
  have hd := congrArg String.data hn
  rw [goString_data_append] at hd
  have h2 := congrArg List.getLast? hd
  rw [List.getLast?_concat] at h2
  simp at h2

/-- C3 (amended): for every duration pair with nonzero without-traffic
seconds, both Deviation strings are signed integers with no suffix. -/
theorem newDeviation_strings_signed_integers (r : DistanceMatrixElement)
    (h : r.duration.seconds ≠ 0) :
    ∃ n m : ℤ, newDeviation r = ⟨fmtSignedInt n, fmtSignedInt m⟩ :=
  ⟨goTruncToInt (100 / r.duration.seconds * r.durationInTraffic.seconds - 100),
    goTruncToInt (r.durationInTraffic.minutes - r.duration.minutes),
    newDeviation_eq_of_noTraffic_ne_zero r h⟩

/-- Witness for the amended C3 theorem. -/
theorem newDeviation_strings_signed_integers_witness :
    (⟨⟨6600000000000⟩, ⟨6000000000000⟩⟩ : DistanceMatrixElement).duration.seconds ≠ 0 ∧
    ∃ n m : ℤ, newDeviation ⟨⟨6600000000000⟩, ⟨6000000000000⟩⟩ =
      ⟨fmtSignedInt n, fmtSignedInt m⟩ :=
  ⟨by norm_num [Duration.seconds],
    newDeviation_strings_signed_integers ⟨⟨6600000000000⟩, ⟨6000000000000⟩⟩
      (by norm_num [Duration.seconds])⟩

/-- C4 counterexample: for withTraffic = 90s (1.5 min) and withoutTraffic =
60s (1 min) the rendered absolute deviation is "+0", while rounding each
minute value half-to-even before subtracting would give +1. -/
theorem absolute_deviation_not_banker_rounded :
    (newDeviation ⟨⟨90000000000⟩, ⟨60000000000⟩⟩).Absolute ≠
      fmtSignedInt (roundHalfToEven (⟨90000000000⟩ : Duration).minutes -
        roundHalfToEven (⟨60000000000⟩ : Duration).minutes) := by
  rw [newDeviation_at_90s_60s]
  have h1 : roundHalfToEven (⟨90000000000⟩ : Duration).minutes = 2 := by
    norm_num [roundHalfToEven, Duration.minutes]
  have h2 : roundHalfToEven (⟨60000000000⟩ : Duration).minutes = 1 := by
    norm_num [roundHalfToEven, Duration.minutes]
  rw [h1, h2]
  decide

/-- C4 (amended): the deviation integers are obtained by truncating the raw
float64 values toward zero, after the subtraction / ratio, not by rounding
the minute values first. -/
theorem newDeviation_truncates_after_subtraction (r : DistanceMatrixElement)
    (h : r.duration.seconds ≠ 0) :
    newDeviation r =
      { Relative := fmtSignedInt
          (if 0 ≤ 100 / r.duration.seconds * r.durationInTraffic.seconds - 100 then
            ⌊100 / r.duration.seconds * r.durationInTraffic.seconds - 100⌋
          else ⌈100 / r.duration.seconds * r.durationInTraffic.seconds - 100⌉),
        Absolute := fmtSignedInt
          (if 0 ≤ r.durationInTraffic.minutes - r.duration.minutes then
            ⌊r.durationInTraffic.minutes - r.duration.minutes⌋
          else ⌈r.durationInTraffic.minutes - r.duration.minutes⌉) } := by
  rw [newDeviation_eq_of_noTraffic_ne_zero r h]
  rfl

/-- Witness for the amended C4 theorem. -/
theorem newDeviation_truncates_after_subtraction_witness :
    (⟨⟨90000000000⟩, ⟨60000000000⟩⟩ : DistanceMatrixElement).duration.seconds ≠ 0 ∧
    newDeviation ⟨⟨90000000000⟩, ⟨60000000000⟩⟩ =
      { Relative := fmtSignedInt
          (if 0 ≤ 100 / (⟨⟨90000000000⟩, ⟨60000000000⟩⟩ :
              DistanceMatrixElement).duration.seconds *
              (⟨⟨90000000000⟩, ⟨60000000000⟩⟩ :
              DistanceMatrixElement).durationInTraffic.seconds - 100 then
            ⌊100 / (⟨⟨90000000000⟩, ⟨60000000000⟩⟩ :
              DistanceMatrixElement).duration.seconds *
              (⟨⟨90000000000⟩, ⟨60000000000⟩⟩ :
              DistanceMatrixElement).durationInTraffic.seconds - 100⌋
          else ⌈100 / (⟨⟨90000000000⟩, ⟨60000000000⟩⟩ :
              DistanceMatrixElement).duration.seconds *
              (⟨⟨90000000000⟩, ⟨60000000000⟩⟩ :
              DistanceMatrixElement).durationInTraffic.seconds - 100⌉),
        Absolute := fmtSignedInt
          (if 0 ≤ (⟨⟨90000000000⟩, ⟨60000000000⟩⟩ :
              DistanceMatrixElement).durationInTraffic.minutes -
              (⟨⟨90000000000⟩, ⟨60000000000⟩⟩ :
              DistanceMatrixElement).duration.minutes then
            ⌊(⟨⟨90000000000⟩, ⟨60000000000⟩⟩ :
              DistanceMatrixElement).durationInTraffic.minutes -
              (⟨⟨90000000000⟩, ⟨60000000000⟩⟩ :
              DistanceMatrixElement).duration.minutes⌋
          else ⌈(⟨⟨90000000000⟩, ⟨60000000000⟩⟩ :
              DistanceMatrixElement).durationInTraffic.minutes -
              (⟨⟨90000000000⟩, ⟨60000000000⟩⟩ :
              DistanceMatrixElement).duration.minutes⌉) } :=
  ⟨by norm_num [Duration.seconds],
    newDeviation_truncates_after_subtraction ⟨⟨90000000000⟩, ⟨60000000000⟩⟩
      (by norm_num [Duration.seconds])⟩

/-- C5 counterexample: an input with an empty name segment, exactly two
commas and parseable coordinates is accepted, not rejected. -/
theorem empty_name_not_rejected :
    parseLatLngName ",52.5,13.4" = .ok ⟨⟨105 / 2, 67 / 5⟩, ""⟩ ∧
    ∀ e, parseLatLngName ",52.5,13.4" ≠ .error e := by
  refine ⟨parse_empty_name_ok, fun e he => ?_⟩
  rw [parse_empty_name_ok] at he
  exact Except.noConfusion he

/-- C5 (amended): an empty name segment is accepted: for every remainder that
parses as two floating-point numbers, parseLatLngName returns a point whose
Name is the empty string. -/
theorem empty_name_parses_successfully (latStr lngStr : String) (a b : ℚ)
    (ha : parseFloat latStr = some a) (hb : parseFloat lngStr = some b) :
    parseLatLngName ("," ++ latStr ++ "," ++ lngStr) = .ok ⟨⟨a, b⟩, ""⟩ :=
  parseLatLngName_concat "" latStr lngStr a b (by simp) ha hb

/-- Witness for the amended C5 theorem. -/
theorem empty_name_parses_successfully_witness :
    parseFloat "52.5" = some (105 / 2) ∧ parseFloat "13.4" = some (67 / 5) ∧
    parseLatLngName ("," ++ "52.5" ++ "," ++ "13.4") = .ok ⟨⟨105 / 2, 67 / 5⟩, ""⟩ :=
  ⟨parseFloat_52_5, parseFloat_13_4,
    empty_name_parses_successfully "52.5" "13.4" (105 / 2) (67 / 5)
      parseFloat_52_5 parseFloat_13_4⟩

/-- C7: well-formed inputs (name, two commas, two parseable floats) yield
exactly the name and the two numbers; the spec's worked example parses to
(home, 52.5, 13.4); three commas or a non-numeric coordinate yield errors. -/
theorem parseLatLngName_spec (name latStr lngStr : String) (a b : ℚ)
    (hn : ',' ∉ name.data) (ha : parseFloat latStr = some a)
    (hb : parseFloat lngStr = some b) :
    parseLatLngName (name ++ "," ++ latStr ++ "," ++ lngStr) = .ok ⟨⟨a, b⟩, name⟩ ∧
    parseLatLngName "home,52.5,13.4" = .ok ⟨⟨105 / 2, 67 / 5⟩, "home"⟩ ∧
    (∃ e, parseLatLngName "bad,1,2,3" = .error e) ∧
    (∃ e, parseLatLngName "home,notanumber,13.4" = .error e) := by
  refine ⟨parseLatLngName_concat name latStr lngStr a b hn ha hb, parse_home_ok, ?_, ?_⟩
  · exact ⟨"invalid format, must contain 2 commas, got " ++ toString 3,
      by simp +decide [parseLatLngName, goCount]⟩
  · exact ⟨"invalid coordinate value",
      by simp +decide [parseLatLngName, goCount, goCut, ParseLatLng, parseFloat,
        parseFloatCore, cutList, natOfDigits, digitVal]⟩

/-- Witness for the C7 theorem at the worked example. -/
theorem parseLatLngName_spec_witness :
    (',' ∉ ("home" : String).data ∧ parseFloat "52.5" = some (105 / 2) ∧
      parseFloat "13.4" = some (67 / 5)) ∧
    parseLatLngName ("home" ++ "," ++ "52.5" ++ "," ++ "13.4") =
      .ok ⟨⟨105 / 2, 67 / 5⟩, "home"⟩ :=
  ⟨⟨by decide, parseFloat_52_5, parseFloat_13_4⟩,
    (parseLatLngName_spec "home" "52.5" "13.4" (105 / 2) (67 / 5) (by decide)
      parseFloat_52_5 parseFloat_13_4).1⟩

/-- C9: any successfully parsed point, re-serialized as name, comma, a
rendering of its latitude, comma, a rendering of its longitude, re-parses to
the very same point. -/
theorem parsed_point_roundtrip (s : String) (p : LatLngName)
    (h : parseLatLngName s = .ok p) (latStr lngStr : String)
    (ha : parseFloat latStr = some p.latLng.Lat)
    (hb : parseFloat lngStr = some p.latLng.Lng) :
    parseLatLngName (p.Name ++ "," ++ latStr ++ "," ++ lngStr) = .ok p := by
  have hn := parseLatLngName_ok_name s p h
  exact parseLatLngName_concat p.Name latStr lngStr _ _ hn ha hb

/-- Witness for the C9 theorem at the worked example. -/
theorem parsed_point_roundtrip_witness :
    parseLatLngName "home,52.5,13.4" = .ok ⟨⟨105 / 2, 67 / 5⟩, "home"⟩ ∧
    parseLatLngName (("home" : String) ++ "," ++ "52.5" ++ "," ++ "13.4") =
      .ok ⟨⟨105 / 2, 67 / 5⟩, "home"⟩ :=
  ⟨parse_home_ok,
    parsed_point_roundtrip "home,52.5,13.4" ⟨⟨105 / 2, 67 / 5⟩, "home"⟩ parse_home_ok
      "52.5" "13.4" parseFloat_52_5 parseFloat_13_4⟩

/-- C8: any TravelResult with Origin.Name home, WithTraffic 110 and absolute
deviation string "+10" renders through the default template to exactly
"home: 110 +10min". -/
theorem renderDefaultFormat_home_110 (r : TravelResult)
    (h1 : r.Origin.Name = "home") (h2 : r.WithTraffic = 110)
    (h3 : r.Deviation.Absolute = "+10") :
    renderDefaultFormat r = "home: 110 +10min" := by
  unfold renderDefaultFormat
  rw [h1, h2, h3]
  rfl

/-- Witness for the C8 theorem at the repository test's TravelResult. -/
theorem renderDefaultFormat_home_110_witness :
    renderDefaultFormat ⟨⟨⟨0, 0⟩, "home"⟩, ⟨⟨0, 0⟩, "work"⟩, 110, 100, ⟨"+10%", "+10"⟩⟩ =
      "home: 110 +10min" :=
  renderDefaultFormat_home_110 ⟨⟨⟨0, 0⟩, "home"⟩, ⟨⟨0, 0⟩, "work"⟩, 110, 100, ⟨"+10%", "+10"⟩⟩
    rfl rfl rfl
